import Mathlib

/-!
Shallow embedding of the SchemaForge.ai generation core:
the entity-model normalizer (aiService.parseNaturalLanguage's id-injection
step), the JSON Schema generator (schemaService), the OpenAPI generator
(apiService), the diagram generator (erdService), and the schema format
converter (schemaService.convertToSQL / convertToTypeScript).

JavaScript objects used as string-keyed maps are modeled as association
lists with JS assignment semantics (update-in-place for an existing key,
append for a new one).  Text artifacts built by string concatenation with
embedded newlines are modeled as lists of lines, one list element per line
of the generated text.  Calls to `new Date().toISOString()` are modeled by
threading an explicit `now : String` parameter.
-/

namespace SchemaForge

/-- A JSON-Schema items fragment (the value of `constraints.items`), modeled
by its `type` keyword, which is the only part of it the code inspects. -/
structure ItemsFragment where
  type : String
deriving DecidableEq, Repr

/-- The open `constraints` map of a field.  Absent keys are `none`/`false`. -/
structure Constraints where
  primary : Bool := false
  unique : Bool := false
  autoIncrement : Bool := false
  maxLength : Option Int := none
  minLength : Option Int := none
  minimum : Option Int := none
  maximum : Option Int := none
  dflt : Option String := none
  enum : Option (List String) := none
  pattern : Option String := none
  items : Option ItemsFragment := none
deriving DecidableEq, Repr

/-- A field of an entity (`{name, type, required, description, constraints?}`). -/
structure Field where
  name : String
  type : String
  required : Bool
  description : String
  constraints : Option Constraints := none
deriving DecidableEq, Repr

/-- An entity (`{name, tableName, description, fields}`). -/
structure Entity where
  name : String
  tableName : String
  description : Option String := none
  fields : List Field
deriving DecidableEq, Repr

/-- A relationship (`{from, to, type, description?}`).  `from` is a Lean
keyword, so the fields are named `fromName`/`toName`. -/
structure Relationship where
  fromName : String
  toName : String
  type : String
  description : Option String := none
deriving DecidableEq, Repr

/-- The raw parsed data `{entities, relationships}`; `relationships` may be
absent (`none`), which the code normalizes with `relationships || []`. -/
structure ParsedData where
  entities : List Entity
  relationships : Option (List Relationship) := none
deriving DecidableEq, Repr

/-- JS object assignment `obj[k] = v` on an association list: update an
existing key in place, append a new key at the end. -/
def jsObjInsert (k : String) (v : α) : List (String × α) → List (String × α)
  | [] => [(k, v)]
  | (k', v') :: rest => if k' = k then (k, v) :: rest else (k', v') :: jsObjInsert k v rest

/-- The keys of a JS-object association list, in insertion order. -/
def jsKeys (l : List (String × α)) : List String := l.map Prod.fst

/-- JS property read `obj[k]` on an association list. -/
def jsGet (l : List (String × α)) (k : String) : Option α := l.lookup k

/-- JS `a || b` on an optional string: empty string is falsy. -/
def jsOrStr (o : Option String) (alt : String) : String :=
  match o with
  | some s => if s = "" then alt else s
  | none => alt

/-- JS truthiness of an optional number (absent and 0 are falsy). -/
def truthyInt (o : Option Int) : Bool :=
  match o with
  | some n => n != 0
  | none => false

/-- JS truthiness of an optional string (absent and "" are falsy). -/
def truthyStr (o : Option String) : Bool :=
  match o with
  | some s => s != ""
  | none => false

/-- JS `s.toLowerCase()`, modeled char-wise (ASCII, kernel-computable). -/
def jsToLower (s : String) : String := String.mk (s.data.map Char.toLower)

/-- JS `s.toUpperCase()`, modeled char-wise (ASCII, kernel-computable). -/
def jsToUpper (s : String) : String := String.mk (s.data.map Char.toUpper)

/-! ## Entity model normalizer (aiService.parseNaturalLanguage, id injection) -/

/-- The synthesized primary-key field that the normalizer prepends
(`entity.fields.unshift({name:'id', ...})`). -/
def idFieldDef : Field :=
  { name := "id"
    type := "number"
    required := true
    description := "Unique identifier"
    constraints := some { primary := true, autoIncrement := true } }

/-- One entity's normalization step: if no field is named exactly `id`,
prepend `idFieldDef`; otherwise leave the entity unchanged. -/
def normalizeEntity (e : Entity) : Entity :=
  if e.fields.any (fun f => f.name == "id") then e
  else { e with fields := idFieldDef :: e.fields }

/-- The normalizer pass over all parsed entities. -/
def normalizeEntities (es : List Entity) : List Entity := es.map normalizeEntity

/-! ## JSON Schema generator (schemaService) -/

/-- The `metadata` side-channel of a generated property schema. -/
structure FieldMetadata where
  fieldName : String
  originalType : String
  constraints : Constraints
deriving DecidableEq, Repr

/-- A generated JSON-Schema property (schemaService.createFieldSchema output);
keys the code never sets for the given type stay `none`. -/
structure FieldSchema where
  description : String
  type : String := ""
  format : Option String := none
  maxLength : Option Int := none
  minLength : Option Int := none
  pattern : Option String := none
  minimum : Option Int := none
  maximum : Option Int := none
  dflt : Option String := none
  enum : Option (List String) := none
  items : Option ItemsFragment := none
  metadata : FieldMetadata
deriving DecidableEq, Repr

/-- schemaService.createFieldSchema: the per-field type switch on
`jsToLower field.typeCase()` followed by the unconditional default/enum
and metadata assignments. -/
def createFieldSchema (field : Field) : FieldSchema :=
  let c := field.constraints
  let base : FieldSchema :=
    { description := field.description
      metadata := ⟨field.name, field.type, c.getD {}⟩ }
  let typed : FieldSchema :=
    match jsToLower field.type with
    | "string" | "text" =>
        { base with
          type := "string",
          maxLength := if truthyInt (c.bind (·.maxLength)) then c.bind (·.maxLength) else none,
          minLength := if truthyInt (c.bind (·.minLength)) then c.bind (·.minLength) else none,
          pattern := if truthyStr (c.bind (·.pattern)) then c.bind (·.pattern) else none }
    | "email" => { base with type := "string", format := some "email" }
    | "url" => { base with type := "string", format := some "uri" }
    | "number" | "integer" | "int" =>
        { base with
          type := "integer",
          minimum := c.bind (·.minimum),
          maximum := c.bind (·.maximum) }
    | "float" | "decimal" | "double" =>
        { base with
          type := "number",
          minimum := c.bind (·.minimum),
          maximum := c.bind (·.maximum) }
    | "boolean" | "bool" => { base with type := "boolean" }
    | "date" | "datetime" | "timestamp" =>
        { base with type := "string", format := some "date-time" }
    | "array" =>
        { base with type := "array", items := c.bind (·.items) }
    | "json" | "object" => { base with type := "object" }
    | _ => { base with type := "string" }
  { typed with
    dflt := c.bind (·.dflt),
    enum := c.bind (·.enum) }

/-- The `metadata` side-channel of an entity definition. -/
structure EntityMetadata where
  tableName : String
  entity : String
deriving DecidableEq, Repr

/-- A generated entity definition (schemaService.createEntitySchema output). -/
structure EntitySchema where
  type : String
  title : String
  description : String
  properties : List (String × FieldSchema)
  required : List String
  additionalProperties : Bool
  metadata : EntityMetadata
deriving DecidableEq, Repr

/-- schemaService.createEntitySchema: one property per field (JS-object
insertion), `required` collecting names of required fields in field order. -/
def createEntitySchema (entity : Entity) : EntitySchema :=
  { type := "object"
    title := jsOrStr entity.description entity.name
    description := "Schema for " ++ entity.name ++ " entity"
    properties := entity.fields.foldl (fun ps f => jsObjInsert f.name (createFieldSchema f) ps) []
    required := entity.fields.foldl (fun r f => if f.required then r ++ [f.name] else r) []
    additionalProperties := false
    metadata := ⟨entity.tableName, entity.name⟩ }

/-- The top-level document metadata block. -/
structure DocMetadata where
  generatedAt : String
  totalEntities : Nat
  totalRelationships : Nat
deriving DecidableEq, Repr

/-- The generated JSON Schema document (`$schema`/`$id` as
`schemaUri`/`docId`). -/
structure JsonSchemaDoc where
  schemaUri : String
  docId : String
  title : String
  description : String
  type : String
  definitions : List (String × EntitySchema)
  relationships : List Relationship
  metadata : DocMetadata
deriving DecidableEq, Repr

/-- schemaService.generateJsonSchema with `new Date().toISOString()`
modeled by the `now` parameter. -/
def generateJsonSchema (now : String) (parsedData : ParsedData) : JsonSchemaDoc :=
  let entities := parsedData.entities
  let relationships := parsedData.relationships.getD []
  let schemas := entities.foldl (fun acc e => jsObjInsert e.name (createEntitySchema e) acc) []
  { schemaUri := "https://json-schema.org/draft/2020-12/schema"
    docId := "generated-schema"
    title := "Generated Schema"
    description := "Auto-generated schema from natural language description"
    type := "object"
    definitions := schemas
    relationships := relationships
    metadata := ⟨now, entities.length, relationships.length⟩ }

/-! ## Diagram generator (erdService) -/

/-- Truthiness of one boolean key of `field.constraints?.…`. -/
def cBool (field : Field) (g : Constraints → Bool) : Bool :=
  (field.constraints.map g).getD false

/-- erdService's Mermaid type lookup table (`typeMap`). -/
def mermaidTypeMap : List (String × String) :=
  [("string", "varchar"), ("text", "text"), ("email", "varchar"), ("url", "varchar"),
   ("number", "int"), ("integer", "int"), ("int", "int"), ("float", "float"),
   ("decimal", "decimal"), ("double", "double"), ("boolean", "boolean"), ("bool", "boolean"),
   ("date", "date"), ("datetime", "datetime"), ("timestamp", "timestamp"),
   ("array", "json"), ("json", "json"), ("object", "json")]

/-- erdService.mapTypeToMermaidType: table lookup on the lower-cased token
with `'varchar'` fallback. -/
def mapTypeToMermaidType (type : String) : String :=
  (mermaidTypeMap.lookup (jsToLower type)).getD "varchar"

/-- erdService's PlantUML type lookup table (`typeMap`). -/
def plantUMLTypeMap : List (String × String) :=
  [("string", "VARCHAR"), ("text", "TEXT"), ("email", "VARCHAR"), ("url", "VARCHAR"),
   ("number", "INTEGER"), ("integer", "INTEGER"), ("int", "INTEGER"), ("float", "FLOAT"),
   ("decimal", "DECIMAL"), ("double", "DOUBLE"), ("boolean", "BOOLEAN"), ("bool", "BOOLEAN"),
   ("date", "DATE"), ("datetime", "DATETIME"), ("timestamp", "TIMESTAMP"),
   ("array", "JSON"), ("json", "JSON"), ("object", "JSON")]

/-- erdService.mapTypeToPlantUMLType: table lookup on the lower-cased token
with `'VARCHAR'` fallback. -/
def mapTypeToPlantUMLType (type : String) : String :=
  (plantUMLTypeMap.lookup (jsToLower type)).getD "VARCHAR"

/-- erdService.getMermaidRelationshipSymbol's `symbolMap`. -/
def mermaidRelSymbolMap : List (String × String) :=
  [("oneToOne", "||--||"), ("oneToMany", "||--o\x7b"),
   ("manyToOne", "o\x7b--||"), ("manyToMany", "o\x7b--o\x7b")]

/-- erdService.getMermaidRelationshipSymbol: lookup with `'||--o{'` fallback
(the token is not lower-cased here). -/
def getMermaidRelationshipSymbol (relType : String) : String :=
  (mermaidRelSymbolMap.lookup relType).getD "||--o\x7b"

/-- erdService.getPlantUMLRelationshipSymbol's `symbolMap` (a second,
textually identical table in the source). -/
def plantUMLRelSymbolMap : List (String × String) :=
  [("oneToOne", "||--||"), ("oneToMany", "||--o\x7b"),
   ("manyToOne", "o\x7b--||"), ("manyToMany", "o\x7b--o\x7b")]

/-- erdService.getPlantUMLRelationshipSymbol: lookup with `'||--o{'` fallback. -/
def getPlantUMLRelationshipSymbol (relType : String) : String :=
  (plantUMLRelSymbolMap.lookup relType).getD "||--o\x7b"

/-- erdService.getRelationshipText's `textMap`. -/
def relationshipTextMap : List (String × String) :=
  [("oneToOne", "has one"), ("oneToMany", "has many"),
   ("manyToOne", "belongs to"), ("manyToMany", "has many")]

/-- erdService.getRelationshipText: lookup with `'relates to'` fallback. -/
def getRelationshipText (relType : String) : String :=
  (relationshipTextMap.lookup relType).getD "relates to"

/-- erdService.generateMermaidConstraints: the quoted constraint-tag suffix
(empty string when no tag applies). -/
def generateMermaidConstraints (field : Field) : String :=
  let constraints :=
    (if cBool field (·.primary) then ["PK"] else []) ++
    (if cBool field (·.unique) then ["UK"] else []) ++
    (if field.required then ["NOT NULL"] else []) ++
    (if cBool field (·.autoIncrement) then ["AUTO_INCREMENT"] else [])
  if constraints.isEmpty then ""
  else " \"" ++ String.intercalate ", " constraints ++ "\""

/-- The Mermaid lines of one entity block. -/
def mermaidEntityLines (entity : Entity) : List String :=
  ["", "    " ++ jsToUpper entity.tableName ++ " \x7b"] ++
  entity.fields.map (fun field =>
    "        " ++ mapTypeToMermaidType field.type ++ " " ++ field.name ++
      generateMermaidConstraints field) ++
  ["    \x7d"]

/-- The Mermaid line of one relationship: `none` when either endpoint name
does not resolve to an entity (the source's `if (fromEntity && toEntity)`). -/
def mermaidRelLine (entities : List Entity) (rel : Relationship) : Option String :=
  match entities.find? (fun e => e.name == rel.fromName),
        entities.find? (fun e => e.name == rel.toName) with
  | some fromEntity, some toEntity =>
      some ("    " ++ jsToUpper fromEntity.tableName ++ " " ++
        getMermaidRelationshipSymbol rel.type ++ " " ++ jsToUpper toEntity.tableName ++
        " : \"" ++ jsOrStr rel.description rel.type ++ "\"")
  | _, _ => none

/-- erdService.generateMermaidERD as a list of output lines. -/
def generateMermaidERD (entities : List Entity) (relationships : List Relationship) :
    List String :=
  ["erDiagram"] ++ entities.flatMap mermaidEntityLines ++
  (if relationships.isEmpty then []
   else ["", "    %% Relationships"] ++ relationships.filterMap (mermaidRelLine entities))

/-- erdService.getPlantUMLKeyIndicator. -/
def getPlantUMLKeyIndicator (field : Field) : String :=
  if cBool field (·.primary) then "* "
  else if cBool field (·.unique) then "+ "
  else if field.required then "- "
  else "  "

/-- The PlantUML lines of one entity block. -/
def plantUMLEntityLines (entity : Entity) : List String :=
  ["entity \"" ++ entity.tableName ++ "\" as " ++ entity.name ++ " \x7b"] ++
  entity.fields.map (fun field =>
    "  " ++ getPlantUMLKeyIndicator field ++ field.name ++ " : " ++
      mapTypeToPlantUMLType field.type) ++
  ["\x7d", ""]

/-- The PlantUML line of one relationship; `none` when an endpoint does not
resolve (the source's `if (fromEntity && toEntity)`). -/
def plantUMLRelLine (entities : List Entity) (rel : Relationship) : Option String :=
  match entities.find? (fun e => e.name == rel.fromName),
        entities.find? (fun e => e.name == rel.toName) with
  | some _, some _ =>
      some (rel.fromName ++ " " ++ getPlantUMLRelationshipSymbol rel.type ++ " " ++
        rel.toName ++ " : " ++ jsOrStr rel.description rel.type)
  | _, _ => none

/-- erdService.generatePlantUMLERD as a list of output lines. -/
def generatePlantUMLERD (entities : List Entity) (relationships : List Relationship) :
    List String :=
  ["@startuml", "!define RECTANGLE class", ""] ++ entities.flatMap plantUMLEntityLines ++
  (if relationships.isEmpty then []
   else relationships.filterMap (plantUMLRelLine entities)) ++
  ["", "@enduml"]

/-- erdService.getConstraintDescription: the parenthesized comma-joined
constraint summary used by the textual description. -/
def getConstraintDescription (constraints : Option Constraints) : String :=
  match constraints with
  | none => ""
  | some c =>
    let descriptions :=
      (if c.primary then ["Primary Key"] else []) ++
      (if c.unique then ["Unique"] else []) ++
      (if c.autoIncrement then ["Auto Increment"] else []) ++
      (match c.maxLength with
       | some n => if n != 0 then ["Max Length: " ++ toString n] else []
       | none => []) ++
      (match c.minLength with
       | some n => if n != 0 then ["Min Length: " ++ toString n] else []
       | none => []) ++
      (match c.minimum with | some n => ["Min Value: " ++ toString n] | none => []) ++
      (match c.maximum with | some n => ["Max Value: " ++ toString n] | none => []) ++
      (match c.dflt with | some v => ["Default: " ++ v] | none => []) ++
      (match c.enum with | some xs => ["Options: " ++ String.intercalate ", " xs] | none => [])
    if descriptions.isEmpty then ""
    else " (" ++ String.intercalate ", " descriptions ++ ")"

/-- The textual-description lines of one (zero-based index, entity) pair. -/
def textualEntityLines (p : Nat × Entity) : List String :=
  let entity := p.2
  [toString (p.1 + 1) ++ ". " ++ jsToUpper entity.name ++ " (Table: " ++ entity.tableName ++ ")",
   "   Description: " ++ jsOrStr entity.description "No description provided",
   "   Fields:"] ++
  entity.fields.flatMap (fun field =>
    ["   - " ++ field.name ++ ": " ++ field.type ++
       (if field.required then " (Required)" else " (Optional)"),
     "     " ++ field.description ++ getConstraintDescription field.constraints]) ++
  [""]

/-- The textual-description lines of one (zero-based index, relationship)
pair.  Note: the source renders every relationship here, without resolving
its endpoints against the entity list. -/
def textualRelLines (p : Nat × Relationship) : List String :=
  [toString (p.1 + 1) ++ ". " ++ p.2.fromName ++ " " ++ getRelationshipText p.2.type ++
     " " ++ p.2.toName,
   "   " ++ jsOrStr p.2.description "No description provided",
   ""]

/-- erdService.generateTextualDescription as a list of output lines. -/
def generateTextualDescription (now : String) (entities : List Entity)
    (relationships : List Relationship) : List String :=
  ["Database Schema Description", "============================", "",
   "Entities:", "---------"] ++
  entities.enum.flatMap textualEntityLines ++
  (if relationships.isEmpty then []
   else ["Relationships:", "-------------"] ++ relationships.enum.flatMap textualRelLines) ++
  ["Summary:", "--------",
   "Total Entities: " ++ toString entities.length,
   "Total Relationships: " ++ toString relationships.length] ++
  ["Generated: " ++ now]

/-- The metadata block returned with the diagram bundle. -/
structure ErdMetadata where
  totalEntities : Nat
  totalRelationships : Nat
  generatedAt : String
  diagramType : String
deriving DecidableEq, Repr

/-- The diagram bundle returned by erdService.generateErdDiagram. -/
structure ErdResult where
  mermaid : List String
  plantUML : List String
  textual : List String
  metadata : ErdMetadata
deriving DecidableEq, Repr

/-- erdService.generateErdDiagram with the clock as `now`. -/
def generateErdDiagram (now : String) (parsedData : ParsedData) : ErdResult :=
  let entities := parsedData.entities
  let rels := parsedData.relationships.getD []
  { mermaid := generateMermaidERD entities rels
    plantUML := generatePlantUMLERD entities rels
    textual := generateTextualDescription now entities rels
    metadata := ⟨entities.length, rels.length, now, "Entity Relationship Diagram"⟩ }

/-! ## OpenAPI generator (apiService) -/

/-- An OpenAPI property schema (apiService.createOpenApiFieldSchema output). -/
structure OpenApiFieldSchema where
  description : String
  type : String := ""
  format : Option String := none
  maxLength : Option Int := none
  items : Option ItemsFragment := none
deriving DecidableEq, Repr

/-- apiService.createOpenApiFieldSchema: the OpenAPI per-field switch.
Unlike the JSON Schema switch it has no `json`/`object` case, and its
`array` case fixes `items` to `{type:'string'}`. -/
def createOpenApiFieldSchema (field : Field) : OpenApiFieldSchema :=
  let c := field.constraints
  let base : OpenApiFieldSchema := { description := field.description }
  match jsToLower field.type with
  | "string" | "text" =>
      { base with
        type := "string",
        maxLength := if truthyInt (c.bind (·.maxLength)) then c.bind (·.maxLength) else none }
  | "email" => { base with type := "string", format := some "email" }
  | "url" => { base with type := "string", format := some "uri" }
  | "number" | "integer" | "int" => { base with type := "integer" }
  | "float" | "decimal" | "double" => { base with type := "number" }
  | "boolean" | "bool" => { base with type := "boolean" }
  | "date" | "datetime" | "timestamp" =>
      { base with type := "string", format := some "date-time" }
  | "array" => { base with type := "array", items := some ⟨"string"⟩ }
  | _ => { base with type := "string" }

/-- A synthesized example value: a JSON string, number, or boolean. -/
inductive ExampleValue where
  | s (v : String)
  | i (v : Int)
  | b (v : Bool)
deriving DecidableEq, Repr

/-- Whether an example value is a JSON number. -/
def ExampleValue.isNum : ExampleValue → Bool
  | .i _ => true
  | _ => false

/-- Whether an example value is a JSON boolean. -/
def ExampleValue.isBool : ExampleValue → Bool
  | .b _ => true
  | _ => false

/-- Whether an example value is a JSON string. -/
def ExampleValue.isStr : ExampleValue → Bool
  | .s _ => true
  | _ => false

/-- The per-field switch inside apiService.generateExampleData.  Note which
tokens the source actually handles: `number`/`integer` (but not `int`,
`float`, `decimal`, `double`), `boolean` (but not `bool`), `date`/`datetime`
(but not `timestamp`); everything else falls to `sample_<name>`. -/
def exampleValue (now : String) (field : Field) : ExampleValue :=
  match jsToLower field.type with
  | "string" | "text" =>
      .s (if field.name = "name" then "John Doe" else "Sample " ++ field.name)
  | "email" => .s "user@example.com"
  | "number" | "integer" => .i (if field.name = "id" then 1 else 100)
  | "boolean" => .b true
  | "date" | "datetime" => .s now
  | _ => .s ("sample_" ++ field.name)

/-- apiService.generateExampleData: one example value per field, keyed by
field name (JS-object insertion). -/
def generateExampleData (now : String) (entity : Entity) : List (String × ExampleValue) :=
  entity.fields.foldl (fun ex f => jsObjInsert f.name (exampleValue now f) ex) []

/-- An OpenAPI component schema (apiService.createComponentSchema output);
the JS key `example` is named `exampleObj` (`example` is a Lean keyword). -/
structure ComponentSchema where
  type : String
  properties : List (String × OpenApiFieldSchema)
  required : List String
  exampleObj : List (String × ExampleValue)
deriving DecidableEq, Repr

/-- apiService.createComponentSchema. -/
def createComponentSchema (now : String) (entity : Entity) : ComponentSchema :=
  { type := "object"
    properties :=
      entity.fields.foldl (fun ps f => jsObjInsert f.name (createOpenApiFieldSchema f) ps) []
    required := entity.fields.foldl (fun r f => if f.required then r ++ [f.name] else r) []
    exampleObj := generateExampleData now entity }

/-- An OpenAPI operation, modeled by its model-dependent strings (`tags`,
`summary`, `description`); the fixed-shape `parameters`/`responses`/
`requestBody` boilerplate, which carries no further model dependence, is not
modeled field by field. -/
structure Operation where
  tags : List String
  summary : String
  description : String
deriving DecidableEq, Repr

/-- One value of the OpenAPI `paths` object: the operations present on one
path key. -/
structure PathItem where
  get : Option Operation := none
  post : Option Operation := none
  put : Option Operation := none
  delete : Option Operation := none
deriving DecidableEq, Repr

/-- apiService.generateCrudEndpoints: the two path-key assignments
`paths[basePath] = {get, post}` and `paths[basePath + '/{id}'] = {get, put,
delete}` for one entity. -/
def generateCrudEndpoints (paths : List (String × PathItem)) (entity : Entity) :
    List (String × PathItem) :=
  let entityName := entity.name
  let entityNamePlural := entity.tableName
  let basePath := "/" ++ entityNamePlural
  let paths1 := jsObjInsert basePath
    { get := some ⟨[entityName], "Get all " ++ entityNamePlural,
        "Retrieve a list of all " ++ entityNamePlural⟩
      post := some ⟨[entityName], "Create a new " ++ entityName,
        "Create a new " ++ entityName ++ " record"⟩ } paths
  jsObjInsert (basePath ++ "/\x7bid\x7d")
    { get := some ⟨[entityName], "Get " ++ entityName ++ " by ID",
        "Retrieve a specific " ++ entityName ++ " by its ID"⟩
      put := some ⟨[entityName], "Update " ++ entityName,
        "Update an existing " ++ entityName⟩
      delete := some ⟨[entityName], "Delete " ++ entityName,
        "Delete a " ++ entityName ++ " by ID"⟩ } paths1

/-- apiService.generateRelationshipEndpoints: for each relationship whose two
endpoint names resolve, insert `GET /<fromTable>/{id}/<toTable>` unless the
path key already exists; unresolvable relationships leave `paths` unchanged. -/
def generateRelationshipEndpoints (paths : List (String × PathItem))
    (relationships : List Relationship) (entities : List Entity) :
    List (String × PathItem) :=
  relationships.foldl (fun ps rel =>
    match entities.find? (fun e => e.name == rel.fromName),
          entities.find? (fun e => e.name == rel.toName) with
    | some fromEntity, some toEntity =>
        let relationshipPath :=
          "/" ++ fromEntity.tableName ++ "/\x7bid\x7d/" ++ toEntity.tableName
        if (jsGet ps relationshipPath).isSome then ps
        else jsObjInsert relationshipPath
          { get := some ⟨[rel.fromName],
              "Get " ++ rel.toName ++ " related to " ++ rel.fromName,
              "Retrieve " ++ toEntity.tableName ++ " associated with a specific " ++
                rel.fromName⟩ } ps
    | _, _ => ps) paths

/-- An OpenAPI tag entry. -/
structure Tag where
  name : String
  description : String
deriving DecidableEq, Repr

/-- The generated OpenAPI document, modeled by its model-dependent parts;
the fixed `info`/`servers`/`components.responses` boilerplate is constant
and not modeled field by field. -/
structure OpenApiSpec where
  openapi : String
  paths : List (String × PathItem)
  componentSchemas : List (String × ComponentSchema)
  tags : List Tag
deriving DecidableEq, Repr

/-- The summary block of the OpenAPI result. -/
structure ApiSummary where
  totalEndpoints : Nat
  totalSchemas : Nat
  entities : List String
  generatedAt : String
deriving DecidableEq, Repr

/-- The value returned by apiService.generateApiEndpoints (the
`codeExamples` bundle, plain strings derived from the same example data, is
not modeled). -/
structure ApiResult where
  openApiSpec : OpenApiSpec
  summary : ApiSummary
deriving DecidableEq, Repr

/-- apiService.generateApiEndpoints with the clock as `now`.  The source's
single `entities.forEach` writes schemas, tags and CRUD paths of each entity
into three disjoint objects; it is modeled as three folds. -/
def generateApiEndpoints (now : String) (parsedData : ParsedData) : ApiResult :=
  let entities := parsedData.entities
  let schemas :=
    entities.foldl (fun acc e => jsObjInsert e.name (createComponentSchema now e) acc) []
  let tags := entities.map (fun e => Tag.mk e.name (jsOrStr e.description e.name ++ " operations"))
  let paths0 := entities.foldl (fun ps e => generateCrudEndpoints ps e) []
  let paths :=
    match parsedData.relationships with
    | some rels =>
        if rels.isEmpty then paths0 else generateRelationshipEndpoints paths0 rels entities
    | none => paths0
  { openApiSpec := { openapi := "3.0.3", paths := paths, componentSchemas := schemas, tags := tags }
    summary :=
      { totalEndpoints := paths.length, totalSchemas := schemas.length,
        entities := entities.map (·.name), generatedAt := now } }

/-! ## Schema format converter (schemaService.convertToTypeScript / convertToSQL) -/

/-- JS `s.charAt(0).toUpperCase() + s.slice(1)`. -/
def capitalizeFirst (s : String) : String :=
  match s.data with
  | [] => ""
  | c :: cs => String.mk (c.toUpper :: cs)

/-- schemaService.jsonSchemaToTypeScript applied to an items fragment
(`schema.items || {type:'any'}`); a fragment carries no nested `items`, so
its own `array` case recurses into the `any` default. -/
def fragToTypeScript (t : String) : String :=
  match t with
  | "string" => "string"
  | "number" | "integer" => "number"
  | "boolean" => "boolean"
  | "array" => "any[]"
  | "object" => "object"
  | _ => "any"

/-- schemaService.jsonSchemaToTypeScript on a generated property schema. -/
def jsonSchemaToTypeScript (schema : FieldSchema) : String :=
  match schema.type with
  | "string" => "string"
  | "number" | "integer" => "number"
  | "boolean" => "boolean"
  | "array" =>
      (match schema.items with
       | some frag => fragToTypeScript frag.type
       | none => "any") ++ "[]"
  | "object" => "object"
  | _ => "any"

/-- The TypeScript lines of one `(entityName, entitySchema)` definition. -/
def typeScriptEntityLines (p : String × EntitySchema) : List String :=
  ["export interface " ++ capitalizeFirst p.1 ++ " \x7b"] ++
  p.2.properties.map (fun q =>
    let optional := if p.2.required.contains q.1 then "" else "?"
    "  " ++ q.1 ++ optional ++ ": " ++ jsonSchemaToTypeScript q.2 ++ ";") ++
  ["\x7d", ""]

/-- schemaService.convertToTypeScript as a list of output lines. -/
def convertToTypeScript (schema : JsonSchemaDoc) : List String :=
  ["// Auto-generated TypeScript interfaces", ""] ++
  schema.definitions.flatMap typeScriptEntityLines

/-- schemaService.jsonSchemaToSQL (`schema.maxLength || 255`, 0 falsy). -/
def jsonSchemaToSQL (schema : FieldSchema) : String :=
  match schema.type with
  | "string" =>
      let maxLength := if truthyInt schema.maxLength then schema.maxLength.getD 255 else 255
      "VARCHAR(" ++ toString maxLength ++ ")"
  | "integer" => "INT"
  | "number" => "DECIMAL(10,2)"
  | "boolean" => "BOOLEAN"
  | _ => "TEXT"

/-- One SQL column entry `  <name> <type><nullable><primary><autoIncrement>`. -/
def sqlColumnLine (entitySchema : EntitySchema) (q : String × FieldSchema) : String :=
  let nullable := if entitySchema.required.contains q.1 then " NOT NULL" else ""
  let isPrimary := if q.2.metadata.constraints.primary then " PRIMARY KEY" else ""
  let autoIncrement := if q.2.metadata.constraints.autoIncrement then " AUTO_INCREMENT" else ""
  "  " ++ q.1 ++ " " ++ jsonSchemaToSQL q.2 ++ nullable ++ isPrimary ++ autoIncrement

/-- JS `columns.join(',\n')` viewed as lines: a comma on every column line
but the last; an empty join contributes one empty line. -/
def joinCommaLines : List String → List String
  | [] => [""]
  | [c] => [c]
  | c :: rest => (c ++ ",") :: joinCommaLines rest

/-- The SQL lines of one `(entityName, entitySchema)` definition
(`entitySchema.metadata?.tableName || entityName + 's'`). -/
def sqlTableLines (p : String × EntitySchema) : List String :=
  let tableName := jsOrStr (some p.2.metadata.tableName) (p.1 ++ "s")
  ("CREATE TABLE " ++ tableName ++ " (") ::
  joinCommaLines (p.2.properties.map (sqlColumnLine p.2)) ++
  [");", ""]

/-- schemaService.convertToSQL as a list of output lines. -/
def convertToSQL (schema : JsonSchemaDoc) : List String :=
  ["-- Auto-generated SQL DDL", ""] ++ schema.definitions.flatMap sqlTableLines

/-! ## Standalone schema validation (schemaService.validateSchema) -/

/-- A JSON value, for the arbitrary (possibly structurally broken) documents
the validation operation accepts. -/
inductive Json where
  | null
  | bool (b : Bool)
  | num (n : Int)
  | str (s : String)
  | arr (xs : List Json)
  | obj (kvs : List (String × Json))

/-- JS property read `v[k]` (non-objects have no such properties). -/
def Json.getProp : Json → String → Option Json
  | .obj kvs, k => kvs.lookup k
  | _, _ => none

/-- JS truthiness of a JSON value. -/
def jsTruthy : Json → Bool
  | .null => false
  | .bool b => b
  | .num n => n != 0
  | .str s => s != ""
  | .arr _ => true
  | .obj _ => true

/-- JS `Object.keys(v).length`. -/
def jsObjectKeysLength : Json → Nat
  | .obj kvs => kvs.length
  | .arr xs => xs.length
  | .str s => s.length
  | _ => 0

/-- JS `v.length` (defined for arrays and strings only). -/
def jsLengthProp : Json → Option Nat
  | .arr xs => some xs.length
  | .str s => some s.length
  | _ => none

/-- One entry of the returned `errors` list. -/
structure ValidationError where
  message : String
deriving DecidableEq, Repr

/-- The `summary` object of a validation result; in the catch branch the
definition/relationship counts are absent. -/
structure ValidationSummary where
  totalDefinitions : Option Nat
  totalRelationships : Option Nat
  validatedAt : String
deriving DecidableEq, Repr

/-- The object returned by schemaService.validateSchema. -/
structure ValidationResult where
  valid : Bool
  errors : List ValidationError
  summary : ValidationSummary
deriving DecidableEq, Repr

/-- schemaService.validateSchema.  The Ajv meta-validation machinery
(`getSchema`/`addMetaSchema`/`validateSchema` and the `this.ajv.errors`
read) is external to the repository and is modeled as an oracle returning
either a verdict with its error list or a thrown message; the source's
`try/catch` is the match on that result. -/
def validateSchema (ajvValidateSchema : Json → Except String (Bool × List ValidationError))
    (now : String) (schema : Json) : ValidationResult :=
  match ajvValidateSchema schema with
  | .ok (isValid, errs) =>
      { valid := isValid
        errors := errs
        summary :=
          { totalDefinitions := some
              (match schema.getProp "definitions" with
               | some d => if jsTruthy d then jsObjectKeysLength d else 0
               | none => 0)
            totalRelationships :=
              (match schema.getProp "relationships" with
               | some r => if jsTruthy r then jsLengthProp r else some 0
               | none => some 0)
            validatedAt := now } }
  | .error msg =>
      { valid := false
        errors := [⟨msg⟩]
        summary := { totalDefinitions := none, totalRelationships := none, validatedAt := now } }

/-! ## Verification helpers -/

/-- Whether the character list `p` is an initial segment of `s`. -/
def strLeads : List Char → List Char → Bool
  | [], _ => true
  | _ :: _, [] => false
  | p :: ps, c :: cs => p == c && strLeads ps cs

/-- Whether the line `l` begins with the text `p`. -/
def lineLeads (p l : String) : Bool := strLeads p.data l.data

/-- The recognized abstract type-token vocabulary, shared by all four
per-field type switches/tables of the source. -/
def recognizedTypeTokens : List String :=
  ["string", "text", "email", "url", "number", "integer", "int", "float",
   "decimal", "double", "boolean", "bool", "date", "datetime", "timestamp",
   "array", "json", "object"]

/-- The spec's first test scenario: the single `book` entity, already
normalized (`id` prepended), with no relationships. -/
def bookScenarioModel : ParsedData :=
  { entities :=
      [{ name := "book", tableName := "books", description := some "Books",
         fields :=
           [{ name := "id", type := "number", required := true,
              description := "Unique identifier",
              constraints := some { primary := true, autoIncrement := true } },
            { name := "title", type := "string", required := true,
              description := "Title" }] }]
    relationships := some [] }

/-- A canonical model with no date/datetime fields (every generated byte is
then clock-independent apart from the designated timestamp fields). -/
def clockFreeModel : ParsedData :=
  { entities :=
      [{ name := "user", tableName := "users", description := some "Users",
         fields :=
           [{ name := "id", type := "number", required := true,
              description := "Unique identifier",
              constraints := some { primary := true, autoIncrement := true } },
            { name := "name", type := "string", required := true,
              description := "Name" }] }]
    relationships := some [{ fromName := "user", toName := "user", type := "oneToOne" }] }

/-- A canonical model with a `date`-typed field, whose synthesized OpenAPI
example value reads the clock. -/
def clockSensitiveModel : ParsedData :=
  { entities :=
      [{ name := "post", tableName := "posts", description := none,
         fields :=
           [{ name := "createdAt", type := "date", required := true,
              description := "Creation timestamp" }] }]
    relationships := none }

lemma strLeads_self_append (p rest : List Char) : strLeads p (p ++ rest) = true := by
  induction p with
  | nil => rfl
  | cons c cs ih => simp [strLeads, ih]

lemma lineLeads_self_append (p rest : String) : lineLeads p (p ++ rest) = true := by
  unfold lineLeads
  rw [String.data_append]
  exact strLeads_self_append _ _

lemma lineLeads_false_of_head_ne (p l : String) (cp cl : Char)
    (hp : p.data.head? = some cp) (hl : l.data.head? = some cl) (hne : cp ≠ cl) :
    lineLeads p l = false := by
  unfold lineLeads
  cases hpd : p.data with
  | nil => rw [hpd] at hp; cases hp
  | cons a as =>
    cases hld : l.data with
    | nil => rw [hld] at hl; cases hl
    | cons b bs =>
      rw [hpd] at hp
      rw [hld] at hl
      simp only [List.head?_cons, Option.some.injEq] at hp hl
      subst hp
      subst hl
      simp [strLeads, hne]

lemma lookup_eq_none_of_not_mem {β : Type} (l : List (String × β)) (k : String)
    (h : k ∉ l.map Prod.fst) : l.lookup k = none := by
  induction l with
  | nil => rfl
  | cons p rest ih =>
    simp only [List.map_cons, List.mem_cons] at h
    push_neg at h
    simp [List.lookup, beq_eq_false_iff_ne.mpr h.1, ih h.2]

@[simp] lemma jsKeys_nil {β : Type} : jsKeys ([] : List (String × β)) = [] := rfl

@[simp] lemma jsKeys_cons {β : Type} (p : String × β) (l : List (String × β)) :
    jsKeys (p :: l) = p.1 :: jsKeys l := rfl

lemma mem_jsKeys_jsObjInsert_iff {β : Type} (k' k : String) (v : β)
    (l : List (String × β)) :
    (k' ∈ jsKeys (jsObjInsert k v l)) ↔ (k' = k ∨ k' ∈ jsKeys l) := by
  induction l with
  | nil => simp [jsObjInsert]
  | cons p rest ih =>
    obtain ⟨k1, v1⟩ := p
    by_cases he : k1 = k
    · subst he
      simp [jsObjInsert]
      try tauto
    · simp [jsObjInsert, he, ih]
      try tauto

lemma mem_jsKeys_jsObjInsert_self {β : Type} (k : String) (v : β)
    (l : List (String × β)) : k ∈ jsKeys (jsObjInsert k v l) :=
  (mem_jsKeys_jsObjInsert_iff k k v l).mpr (Or.inl rfl)

lemma mem_jsKeys_jsObjInsert_of_mem {β : Type} {k' : String} (k : String) (v : β)
    {l : List (String × β)} (h : k' ∈ jsKeys l) :
    k' ∈ jsKeys (jsObjInsert k v l) :=
  (mem_jsKeys_jsObjInsert_iff k' k v l).mpr (Or.inr h)

lemma jsKeys_jsObjInsert_of_not_mem {β : Type} (k : String) (v : β)
    {l : List (String × β)} (h : k ∉ jsKeys l) :
    jsKeys (jsObjInsert k v l) = jsKeys l ++ [k] := by
  induction l with
  | nil => simp [jsObjInsert]
  | cons p rest ih =>
    obtain ⟨k1, v1⟩ := p
    simp only [jsKeys_cons, List.mem_cons] at h
    push_neg at h
    simp [jsObjInsert, Ne.symm h.1, ih h.2]

lemma length_jsObjInsert_of_not_mem {β : Type} (k : String) (v : β)
    {l : List (String × β)} (h : k ∉ jsKeys l) :
    (jsObjInsert k v l).length = l.length + 1 := by
  induction l with
  | nil => rfl
  | cons p rest ih =>
    obtain ⟨k1, v1⟩ := p
    simp only [jsKeys_cons, List.mem_cons] at h
    push_neg at h
    simp [jsObjInsert, Ne.symm h.1, ih h.2]

lemma mem_jsKeys_foldl_of_mem_acc {α β : Type} (key : α → String) (mk : α → β)
    (l : List α) (acc : List (String × β)) (k : String) (h : k ∈ jsKeys acc) :
    k ∈ jsKeys (l.foldl (fun a x => jsObjInsert (key x) (mk x) a) acc) := by
  induction l generalizing acc with
  | nil => exact h
  | cons x xs ih => exact ih _ (mem_jsKeys_jsObjInsert_of_mem _ _ h)

lemma mem_jsKeys_foldl_insert {α β : Type} (key : α → String) (mk : α → β)
    (l : List α) : ∀ (acc : List (String × β)) (a : α), a ∈ l →
    key a ∈ jsKeys (l.foldl (fun acc x => jsObjInsert (key x) (mk x) acc) acc) := by
  induction l with
  | nil => intro acc a ha; cases ha
  | cons x xs ih =>
    intro acc a ha
    rcases List.mem_cons.mp ha with h | h
    · subst h
      exact mem_jsKeys_foldl_of_mem_acc key mk xs _ _ (mem_jsKeys_jsObjInsert_self _ _ _)
    · exact ih _ a h

lemma length_foldl_jsObjInsert {α β : Type} (key : α → String) (mk : α → β) :
    ∀ (l : List α) (acc : List (String × β)), (l.map key).Nodup →
      (∀ a ∈ l, key a ∉ jsKeys acc) →
      (l.foldl (fun acc x => jsObjInsert (key x) (mk x) acc) acc).length =
        acc.length + l.length := by
  intro l
  induction l with
  | nil => intro acc _ _; simp
  | cons x xs ih =>
    intro acc hnd hfresh
    have hx : key x ∉ jsKeys acc := hfresh x (List.mem_cons_self x xs)
    have hnd1 : key x ∉ xs.map key := (List.nodup_cons.mp (by simpa using hnd)).1
    have hnd2 : (xs.map key).Nodup := (List.nodup_cons.mp (by simpa using hnd)).2
    have hfresh2 : ∀ a ∈ xs, key a ∉ jsKeys (jsObjInsert (key x) (mk x) acc) := by
      intro a ha
      rw [jsKeys_jsObjInsert_of_not_mem _ _ hx]
      simp only [List.mem_append, List.mem_singleton]
      push_neg
      refine ⟨hfresh a (List.mem_cons_of_mem x ha), fun he => hnd1 ?_⟩
      rw [← he]
      exact List.mem_map_of_mem key ha
    rw [List.foldl_cons, ih (jsObjInsert (key x) (mk x) acc) hnd2 hfresh2,
      length_jsObjInsert_of_not_mem _ _ hx, List.length_cons]
    omega

lemma countP_flatMap_const {α β : Type} (f : α → List β) (p : β → Bool) (c : Nat)
    (h : ∀ a, (f a).countP p = c) :
    ∀ l : List α, (l.flatMap f).countP p = c * l.length := by
  intro l
  induction l with
  | nil => simp
  | cons x xs ih =>
    simp only [List.flatMap_cons, List.countP_append, h, ih, List.length_cons]
    ring

/-! ## Count lemmas for the format converter -/

lemma lineLeads_create_two_space (x : String) :
    lineLeads "CREATE TABLE " ("  " ++ x) = false := by
  refine lineLeads_false_of_head_ne _ _ 'C' ' ' rfl ?_ (by decide)
  rw [String.data_append]
  rfl

lemma lineLeads_ts_two_space (x : String) :
    lineLeads "export interface " ("  " ++ x) = false := by
  refine lineLeads_false_of_head_ne _ _ 'e' ' ' rfl ?_ (by decide)
  rw [String.data_append]
  rfl

lemma countP_map_zero {α : Type} (f : α → String) (pred : String → Bool) (l : List α)
    (h : ∀ a, pred (f a) = false) : (l.map f).countP pred = 0 := by
  induction l with
  | nil => rfl
  | cons x xs ih => simp [List.countP_cons, h, ih]

lemma countP_joinCommaLines_sql (es : EntitySchema) (props : List (String × FieldSchema)) :
    (joinCommaLines (props.map (sqlColumnLine es))).countP (lineLeads "CREATE TABLE ") = 0 := by
  have hblank : lineLeads "CREATE TABLE " "" = false := by decide
  induction props with
  | nil => simp [joinCommaLines, List.countP_cons, hblank]
  | cons q qs ih =>
    obtain ⟨x, hx⟩ : ∃ x, sqlColumnLine es q = "  " ++ x := ⟨_, rfl⟩
    cases qs with
    | nil => simp [joinCommaLines, List.countP_cons, hx, lineLeads_create_two_space]
    | cons q2 qs2 =>
      have hcomma : sqlColumnLine es q ++ "," = "  " ++ (x ++ ",") := by
        rw [hx, String.append_assoc]
      simp only [List.map_cons, joinCommaLines, List.countP_cons, hcomma,
        lineLeads_create_two_space]
      simpa using ih

lemma countP_sqlTableLines (p : String × EntitySchema) :
    (sqlTableLines p).countP (lineLeads "CREATE TABLE ") = 1 := by
  have hclose : lineLeads "CREATE TABLE " ");" = false := by decide
  have hblank : lineLeads "CREATE TABLE " "" = false := by decide
  have hhead : lineLeads "CREATE TABLE "
      ("CREATE TABLE " ++ jsOrStr (some p.2.metadata.tableName) (p.1 ++ "s") ++ " (") = true := by
    rw [String.append_assoc]
    exact lineLeads_self_append _ _
  simp [sqlTableLines, List.countP_cons, List.countP_append, hhead, hclose, hblank,
    countP_joinCommaLines_sql]

lemma countP_typeScriptEntityLines (p : String × EntitySchema) :
    (typeScriptEntityLines p).countP (lineLeads "export interface ") = 1 := by
  have hclose : lineLeads "export interface " "\x7d" = false := by decide
  have hblank : lineLeads "export interface " "" = false := by decide
  have hhead : lineLeads "export interface "
      ("export interface " ++ capitalizeFirst p.1 ++ " \x7b") = true := by
    rw [String.append_assoc]
    exact lineLeads_self_append _ _
  have hprops : (p.2.properties.map (fun q =>
      let optional := if p.2.required.contains q.1 then "" else "?"
      "  " ++ q.1 ++ optional ++ ": " ++ jsonSchemaToTypeScript q.2 ++ ";")).countP
        (lineLeads "export interface ") = 0 := by
    refine countP_map_zero _ _ _ (fun q => ?_)
    obtain ⟨x, hx⟩ : ∃ x,
        (let optional := if p.2.required.contains q.1 then "" else "?"
         "  " ++ q.1 ++ optional ++ ": " ++ jsonSchemaToTypeScript q.2 ++ ";") = "  " ++ x :=
      ⟨_, rfl⟩
    rw [hx]
    exact lineLeads_ts_two_space x
  simp only [typeScriptEntityLines, List.countP_append, List.countP_cons, List.countP_nil,
    hprops, hhead, hclose, hblank]
  rfl

lemma countP_flatMap_sqlTableLines (defs : List (String × EntitySchema)) :
    (defs.flatMap sqlTableLines).countP (lineLeads "CREATE TABLE ") = defs.length := by
  simpa using countP_flatMap_const sqlTableLines (lineLeads "CREATE TABLE ") 1
    countP_sqlTableLines defs

lemma countP_flatMap_typeScriptEntityLines (defs : List (String × EntitySchema)) :
    (defs.flatMap typeScriptEntityLines).countP (lineLeads "export interface ") =
      defs.length := by
  simpa using countP_flatMap_const typeScriptEntityLines (lineLeads "export interface ") 1
    countP_typeScriptEntityLines defs

lemma definitions_length (now : String) (pd : ParsedData)
    (h : (pd.entities.map Entity.name).Nodup) :
    (generateJsonSchema now pd).definitions.length = pd.entities.length := by
  have := length_foldl_jsObjInsert Entity.name createEntitySchema pd.entities []
    h (by intro a _; simp)
  simpa [generateJsonSchema] using this

/-! ## Claim theorems -/

/-- C1: an entity lacking a field named exactly `id` is normalized by
prepending the synthesized primary-key field (so `fields[0]` is exactly
`{name:'id', type:'number', required:true, description:'Unique identifier',
constraints:{primary:true, autoIncrement:true}}` and the original fields
follow in order), while an entity that already has an `id` field keeps its
field list unchanged. -/
theorem c1_primary_key_invariant (e : Entity) :
    (e.fields.any (fun f => f.name == "id") = false →
      (normalizeEntity e).fields = idFieldDef :: e.fields ∧
      idFieldDef.name = "id" ∧ idFieldDef.type = "number" ∧
      idFieldDef.required = true ∧ idFieldDef.description = "Unique identifier" ∧
      idFieldDef.constraints = some { primary := true, autoIncrement := true }) ∧
    (e.fields.any (fun f => f.name == "id") = true →
      (normalizeEntity e).fields = e.fields) := by
  constructor
  · intro h
    refine ⟨?_, rfl, rfl, rfl, rfl, rfl⟩
    simp [normalizeEntity, h]
  · intro h
    simp [normalizeEntity, h]

/-- C1 witness: the normalizer prepends `id` to a `book` entity lacking it
and leaves an entity that already has an `id` field unchanged. -/
theorem c1_primary_key_invariant_witness :
    (normalizeEntity ⟨"book", "books", some "Books",
        [⟨"title", "string", true, "Title", none⟩]⟩).fields =
      idFieldDef :: [⟨"title", "string", true, "Title", none⟩] ∧
    (normalizeEntity ⟨"user", "users", none,
        [⟨"id", "number", true, "Unique identifier", none⟩]⟩).fields =
      [⟨"id", "number", true, "Unique identifier", none⟩] :=
  ⟨((c1_primary_key_invariant _).1 (by decide)).1,
   (c1_primary_key_invariant _).2 (by decide)⟩

/-- C3 (amended): for the four recognized relationship-type tokens the
Mermaid symbol, the PlantUML symbol and the textual verb are exactly their
lookup-table entries, and an unrecognized token falls back to the
`oneToMany` symbol `'||--o{'` in both diagram notations but to
`'relates to'` (not the `oneToMany` verb `'has many'`) in the textual
description. -/
theorem c3_relationship_tables (t : String)
    (h : t ∉ ["oneToOne", "oneToMany", "manyToOne", "manyToMany"]) :
    getMermaidRelationshipSymbol t = "||--o\x7b" ∧
    getPlantUMLRelationshipSymbol t = "||--o\x7b" ∧
    getRelationshipText t = "relates to" ∧
    getMermaidRelationshipSymbol "oneToOne" = "||--||" ∧
    getMermaidRelationshipSymbol "oneToMany" = "||--o\x7b" ∧
    getMermaidRelationshipSymbol "manyToOne" = "o\x7b--||" ∧
    getMermaidRelationshipSymbol "manyToMany" = "o\x7b--o\x7b" ∧
    getPlantUMLRelationshipSymbol "oneToOne" = "||--||" ∧
    getPlantUMLRelationshipSymbol "oneToMany" = "||--o\x7b" ∧
    getPlantUMLRelationshipSymbol "manyToOne" = "o\x7b--||" ∧
    getPlantUMLRelationshipSymbol "manyToMany" = "o\x7b--o\x7b" ∧
    getRelationshipText "oneToOne" = "has one" ∧
    getRelationshipText "oneToMany" = "has many" ∧
    getRelationshipText "manyToOne" = "belongs to" ∧
    getRelationshipText "manyToMany" = "has many" := by
  have h1 : mermaidRelSymbolMap.lookup t = none := by
    refine lookup_eq_none_of_not_mem _ _ ?_
    rw [show mermaidRelSymbolMap.map Prod.fst =
      ["oneToOne", "oneToMany", "manyToOne", "manyToMany"] from by decide]
    exact h
  have h2 : plantUMLRelSymbolMap.lookup t = none := by
    refine lookup_eq_none_of_not_mem _ _ ?_
    rw [show plantUMLRelSymbolMap.map Prod.fst =
      ["oneToOne", "oneToMany", "manyToOne", "manyToMany"] from by decide]
    exact h
  have h3 : relationshipTextMap.lookup t = none := by
    refine lookup_eq_none_of_not_mem _ _ ?_
    rw [show relationshipTextMap.map Prod.fst =
      ["oneToOne", "oneToMany", "manyToOne", "manyToMany"] from by decide]
    exact h
  exact ⟨by simp [getMermaidRelationshipSymbol, h1],
    by simp [getPlantUMLRelationshipSymbol, h2],
    by simp [getRelationshipText, h3],
    by decide, by decide, by decide, by decide,
    by decide, by decide, by decide, by decide,
    by decide, by decide, by decide, by decide⟩

/-- C3 witness: the fallback renderings at the unrecognized token
`'unknownKind'`. -/
theorem c3_relationship_tables_witness :
    getMermaidRelationshipSymbol "unknownKind" = "||--o\x7b" ∧
    getPlantUMLRelationshipSymbol "unknownKind" = "||--o\x7b" ∧
    getRelationshipText "unknownKind" = "relates to" :=
  ⟨(c3_relationship_tables "unknownKind" (by decide)).1,
   (c3_relationship_tables "unknownKind" (by decide)).2.1,
   (c3_relationship_tables "unknownKind" (by decide)).2.2.1⟩

/-- C3 counterexample: for the unrecognized token `'bogus'`, the two diagram
notations do fall back to the `oneToMany` symbol, but the textual verb is
`'relates to'`, not the `oneToMany` entry `'has many'` — so the claim that
every unrecognized token falls back to the `oneToMany` rendering in all
three targets is false. -/
theorem c3_relationship_tables_counterexample :
    getMermaidRelationshipSymbol "bogus" = getMermaidRelationshipSymbol "oneToMany" ∧
    getPlantUMLRelationshipSymbol "bogus" = getPlantUMLRelationshipSymbol "oneToMany" ∧
    getRelationshipText "oneToMany" = "has many" ∧
    getRelationshipText "bogus" = "relates to" ∧
    getRelationshipText "bogus" ≠ getRelationshipText "oneToMany" := by
  decide

/-- C9 (amended): the synthesized example value is a JSON number exactly for
the abstract types `number` and `integer`, a JSON boolean exactly for
`boolean`, and a JSON string for every other type token — including the
numeric tokens `int`, `float`, `decimal`, `double` and the boolean token
`bool`, which the example switch does not handle and which fall to the
string fallback `sample_<name>`. -/
theorem c9_example_value_types (field : Field) (now : String) :
    ((jsToLower field.type = "number" ∨ jsToLower field.type = "integer") →
      (exampleValue now field).isNum = true) ∧
    (jsToLower field.type = "boolean" → (exampleValue now field).isBool = true) ∧
    (jsToLower field.type ∉ ["number", "integer", "boolean"] →
      (exampleValue now field).isStr = true) := by
  refine ⟨?_, ?_, ?_⟩ <;> intro h
  · rcases h with h | h <;> simp [exampleValue, h, ExampleValue.isNum]
  · simp [exampleValue, h, ExampleValue.isBool]
  · simp only [List.mem_cons, List.not_mem_nil, or_false] at h
    push_neg at h
    unfold exampleValue
    split <;> simp_all [ExampleValue.isStr]

/-- C9 witness: a `number` field yields a number, a `boolean` field a
boolean, and a `text` field a string. -/
theorem c9_example_value_types_witness :
    (exampleValue "T" ⟨"qty", "number", true, "Quantity", none⟩).isNum = true ∧
    (exampleValue "T" ⟨"ok", "boolean", true, "Flag", none⟩).isBool = true ∧
    (exampleValue "T" ⟨"note", "text", false, "Note", none⟩).isStr = true :=
  ⟨(c9_example_value_types ⟨"qty", "number", true, "Quantity", none⟩ "T").1
     (Or.inl (by decide)),
   (c9_example_value_types ⟨"ok", "boolean", true, "Flag", none⟩ "T").2.1 (by decide),
   (c9_example_value_types ⟨"note", "text", false, "Note", none⟩ "T").2.2 (by decide)⟩

/-- C9 counterexample: a field of the numeric abstract type `int` gets the
string example `"sample_count"`, not a JSON number, because the example
switch handles only `number`/`integer`. -/
theorem c9_example_value_types_counterexample :
    exampleValue "2024-01-01T00:00:00.000Z" ⟨"count", "int", true, "Count", none⟩ =
      ExampleValue.s "sample_count" ∧
    (exampleValue "2024-01-01T00:00:00.000Z"
        ⟨"count", "int", true, "Count", none⟩).isNum = false := by
  decide

/-- C10: the OpenAPI generator renders every `array` field with `items`
fixed to `{type:'string'}`, ignoring `constraints.items`, while the JSON
Schema generator copies `constraints.items` verbatim when present — so the
two disagree on a field whose `constraints.items` is `{type:'number'}`. -/
theorem c10_array_items_divergence (field : Field) (frag : ItemsFragment)
    (harr : jsToLower field.type = "array")
    (hitems : field.constraints.bind (fun c => c.items) = some frag) :
    (createOpenApiFieldSchema field).type = "array" ∧
    (createOpenApiFieldSchema field).items = some ⟨"string"⟩ ∧
    (createFieldSchema field).type = "array" ∧
    (createFieldSchema field).items = some frag ∧
    (createFieldSchema ⟨"tags", "array", false, "Tags",
        some { items := some ⟨"number"⟩ }⟩).items ≠
      (createOpenApiFieldSchema ⟨"tags", "array", false, "Tags",
        some { items := some ⟨"number"⟩ }⟩).items := by
  refine ⟨?_, ?_, ?_, ?_, by decide⟩ <;>
    simp [createOpenApiFieldSchema, createFieldSchema, harr, hitems]

/-- C10 witness: the divergence at the concrete `tags` array field. -/
theorem c10_array_items_divergence_witness :
    (createOpenApiFieldSchema ⟨"tags", "array", false, "Tags",
        some { items := some ⟨"number"⟩ }⟩).type = "array" ∧
    (createOpenApiFieldSchema ⟨"tags", "array", false, "Tags",
        some { items := some ⟨"number"⟩ }⟩).items = some ⟨"string"⟩ ∧
    (createFieldSchema ⟨"tags", "array", false, "Tags",
        some { items := some ⟨"number"⟩ }⟩).type = "array" ∧
    (createFieldSchema ⟨"tags", "array", false, "Tags",
        some { items := some ⟨"number"⟩ }⟩).items = some ⟨"number"⟩ ∧
    (createFieldSchema ⟨"tags", "array", false, "Tags",
        some { items := some ⟨"number"⟩ }⟩).items ≠
      (createOpenApiFieldSchema ⟨"tags", "array", false, "Tags",
        some { items := some ⟨"number"⟩ }⟩).items :=
  c10_array_items_divergence ⟨"tags", "array", false, "Tags",
    some { items := some ⟨"number"⟩ }⟩ ⟨"number"⟩ (by decide) (by decide)

/-- C8: the validation operation always returns a result object carrying the
validation timestamp (it never throws — the embedding is total over every
document and every behavior of the external Ajv machinery), and when the
machinery faults with message `msg` the result is exactly
`{valid:false, errors:[{message:msg}]}` with a bare summary. -/
theorem c8_validation_never_throws
    (ajv : Json → Except String (Bool × List ValidationError))
    (now : String) (schema : Json) :
    (validateSchema ajv now schema).summary.validatedAt = now ∧
    (∀ msg, ajv schema = Except.error msg →
      validateSchema ajv now schema =
        ⟨false, [⟨msg⟩], ⟨none, none, now⟩⟩) := by
  constructor
  · unfold validateSchema
    cases h : ajv schema with
    | ok p => obtain ⟨v, errs⟩ := p; simp
    | error msg => simp
  · intro msg h
    unfold validateSchema
    rw [h]

/-- C8 witness: a faulting Ajv oracle on a structurally broken document is
wrapped into `{valid:false, errors:[{message}]}`. -/
theorem c8_validation_never_throws_witness :
    (validateSchema (fun _ => Except.error "Cannot read properties of undefined")
        "2024-01-01T00:00:00.000Z" Json.null).summary.validatedAt =
      "2024-01-01T00:00:00.000Z" ∧
    validateSchema (fun _ => Except.error "Cannot read properties of undefined")
        "2024-01-01T00:00:00.000Z" Json.null =
      ⟨false, [⟨"Cannot read properties of undefined"⟩],
       ⟨none, none, "2024-01-01T00:00:00.000Z"⟩⟩ :=
  ⟨(c8_validation_never_throws (fun _ => Except.error "Cannot read properties of undefined")
      "2024-01-01T00:00:00.000Z" Json.null).1,
   (c8_validation_never_throws (fun _ => Except.error "Cannot read properties of undefined")
      "2024-01-01T00:00:00.000Z" Json.null).2 _ rfl⟩

/-- C5: from a canonical model with N entities (with distinct names, as the
entity name is the canonical key), the DDL projection of the generated JSON
Schema emits exactly N lines opening `CREATE TABLE ` and the TypeScript
projection exactly N lines opening `export interface `; a document with an
empty definitions map converts to just the well-formed header in both
projections. -/
theorem c5_round_trip_counts (now : String) (pd : ParsedData) (doc : JsonSchemaDoc)
    (hnodup : (pd.entities.map Entity.name).Nodup)
    (hempty : doc.definitions = []) :
    (convertToSQL (generateJsonSchema now pd)).countP (lineLeads "CREATE TABLE ") =
      pd.entities.length ∧
    (convertToTypeScript (generateJsonSchema now pd)).countP
        (lineLeads "export interface ") = pd.entities.length ∧
    convertToSQL doc = ["-- Auto-generated SQL DDL", ""] ∧
    convertToTypeScript doc = ["// Auto-generated TypeScript interfaces", ""] := by
  refine ⟨?_, ?_, ?_, ?_⟩
  · unfold convertToSQL
    rw [List.countP_append, countP_flatMap_sqlTableLines, definitions_length now pd hnodup,
      show (["-- Auto-generated SQL DDL", ""].countP (lineLeads "CREATE TABLE ")) = 0
        from by decide]
    exact Nat.zero_add _
  · unfold convertToTypeScript
    rw [List.countP_append, countP_flatMap_typeScriptEntityLines,
      definitions_length now pd hnodup,
      show (["// Auto-generated TypeScript interfaces", ""].countP
        (lineLeads "export interface ")) = 0 from by decide]
    exact Nat.zero_add _
  · simp [convertToSQL, hempty]
  · simp [convertToTypeScript, hempty]

/-- C5 witness: the counts at a two-entity model and the empty-definitions
document produced from a model with no entities. -/
theorem c5_round_trip_counts_witness :
    (convertToSQL (generateJsonSchema "T"
        ⟨[⟨"user", "users", none, [⟨"id", "number", true, "Unique identifier", none⟩]⟩,
          ⟨"book", "books", none, [⟨"title", "string", true, "Title", none⟩]⟩], some []⟩)).countP
      (lineLeads "CREATE TABLE ") = 2 ∧
    (convertToTypeScript (generateJsonSchema "T"
        ⟨[⟨"user", "users", none, [⟨"id", "number", true, "Unique identifier", none⟩]⟩,
          ⟨"book", "books", none, [⟨"title", "string", true, "Title", none⟩]⟩], some []⟩)).countP
      (lineLeads "export interface ") = 2 ∧
    convertToSQL (generateJsonSchema "U" ⟨[], none⟩) = ["-- Auto-generated SQL DDL", ""] ∧
    convertToTypeScript (generateJsonSchema "U" ⟨[], none⟩) =
      ["// Auto-generated TypeScript interfaces", ""] :=
  c5_round_trip_counts "T"
    ⟨[⟨"user", "users", none, [⟨"id", "number", true, "Unique identifier", none⟩]⟩,
      ⟨"book", "books", none, [⟨"title", "string", true, "Title", none⟩]⟩], some []⟩
    (generateJsonSchema "U" ⟨[], none⟩) (by decide) rfl

lemma dropLast_append_singleton {α : Type} (l : List α) (x : α) :
    (l ++ [x]).dropLast = l := by
  simp

lemma exampleValue_indep (now1 now2 : String) (f : Field)
    (h : jsToLower f.type ≠ "date" ∧ jsToLower f.type ≠ "datetime") :
    exampleValue now1 f = exampleValue now2 f := by
  unfold exampleValue
  split <;> simp_all

lemma generateExampleData_indep (now1 now2 : String) (e : Entity)
    (h : ∀ f ∈ e.fields, jsToLower f.type ≠ "date" ∧ jsToLower f.type ≠ "datetime") :
    generateExampleData now1 e = generateExampleData now2 e := by
  unfold generateExampleData
  apply List.foldl_ext
  intro acc f hf
  rw [exampleValue_indep now1 now2 f (h f hf)]

lemma createComponentSchema_indep (now1 now2 : String) (e : Entity)
    (h : ∀ f ∈ e.fields, jsToLower f.type ≠ "date" ∧ jsToLower f.type ≠ "datetime") :
    createComponentSchema now1 e = createComponentSchema now2 e := by
  unfold createComponentSchema
  rw [generateExampleData_indep now1 now2 e h]

/-- C4: a field whose type token is (case-insensitively) outside the
recognized vocabulary falls back to the generic string/varchar type in all
four per-field switches/tables — JSON Schema `'string'`, OpenAPI `'string'`,
Mermaid `'varchar'`, PlantUML `'VARCHAR'` — and the field is still rendered:
its name is a property key of both generated entity schemas (each generator
is a total function, so generation completes without throwing). -/
theorem c4_fallback_type (field : Field) (entity : Entity) (now : String)
    (hmem : field ∈ entity.fields)
    (h : jsToLower field.type ∉ recognizedTypeTokens) :
    (createFieldSchema field).type = "string" ∧
    (createOpenApiFieldSchema field).type = "string" ∧
    mapTypeToMermaidType field.type = "varchar" ∧
    mapTypeToPlantUMLType field.type = "VARCHAR" ∧
    field.name ∈ jsKeys (createEntitySchema entity).properties ∧
    field.name ∈ jsKeys (createComponentSchema now entity).properties := by
  refine ⟨?_, ?_, ?_, ?_, ?_, ?_⟩
  · have h' := h
    simp only [recognizedTypeTokens, List.mem_cons, List.not_mem_nil, or_false,
      not_or] at h'
    simp only [createFieldSchema]
    split <;> simp_all
  · have h' := h
    simp only [recognizedTypeTokens, List.mem_cons, List.not_mem_nil, or_false,
      not_or] at h'
    simp only [createOpenApiFieldSchema]
    split <;> simp_all
  · have h1 : mermaidTypeMap.lookup (jsToLower field.type) = none := by
      refine lookup_eq_none_of_not_mem _ _ ?_
      rw [show mermaidTypeMap.map Prod.fst = recognizedTypeTokens from by decide]
      exact h
    simp [mapTypeToMermaidType, h1]
  · have h2 : plantUMLTypeMap.lookup (jsToLower field.type) = none := by
      refine lookup_eq_none_of_not_mem _ _ ?_
      rw [show plantUMLTypeMap.map Prod.fst = recognizedTypeTokens from by decide]
      exact h
    simp [mapTypeToPlantUMLType, h2]
  · have := mem_jsKeys_foldl_insert Field.name createFieldSchema entity.fields [] field hmem
    simpa [createEntitySchema] using this
  · have := mem_jsKeys_foldl_insert Field.name createOpenApiFieldSchema entity.fields []
      field hmem
    simpa [createComponentSchema] using this

/-- C4 witness: the fallback renderings of a field with the unrecognized
type token `'bogus'`, inside an entity that contains it. -/
theorem c4_fallback_type_witness :
    (createFieldSchema ⟨"blob", "bogus", false, "Blob", none⟩).type = "string" ∧
    (createOpenApiFieldSchema ⟨"blob", "bogus", false, "Blob", none⟩).type = "string" ∧
    mapTypeToMermaidType "bogus" = "varchar" ∧
    mapTypeToPlantUMLType "bogus" = "VARCHAR" ∧
    "blob" ∈ jsKeys (createEntitySchema ⟨"thing", "things", none,
        [⟨"blob", "bogus", false, "Blob", none⟩]⟩).properties ∧
    "blob" ∈ jsKeys (createComponentSchema "T" ⟨"thing", "things", none,
        [⟨"blob", "bogus", false, "Blob", none⟩]⟩).properties :=
  c4_fallback_type ⟨"blob", "bogus", false, "Blob", none⟩
    ⟨"thing", "things", none, [⟨"blob", "bogus", false, "Blob", none⟩]⟩ "T"
    (by decide) (by decide)

/-- C7: on the normalized single-`book` model, `definitions.book.required`
is `['id','title']` in that order; the OpenAPI paths object has exactly the
keys `/books` (GET, POST) and `/books/{id}` (GET, PUT, DELETE); and
`summary.totalEndpoints` is 2, the number of path keys. -/
theorem c7_book_scenario (now : String) :
    (jsGet (generateJsonSchema now bookScenarioModel).definitions "book").map
        (fun d => d.required) = some ["id", "title"] ∧
    jsKeys (generateApiEndpoints now bookScenarioModel).openApiSpec.paths =
      ["/books", "/books/\x7bid\x7d"] ∧
    ((generateApiEndpoints now bookScenarioModel).openApiSpec.paths.map (fun p =>
        (p.1, p.2.get.isSome, p.2.post.isSome, p.2.put.isSome, p.2.delete.isSome))) =
      [("/books", true, true, false, false),
       ("/books/\x7bid\x7d", true, false, true, true)] ∧
    (generateApiEndpoints now bookScenarioModel).summary.totalEndpoints = 2 ∧
    (generateApiEndpoints now bookScenarioModel).summary.totalEndpoints =
      (generateApiEndpoints now bookScenarioModel).openApiSpec.paths.length := by
  refine ⟨?_, ?_, ?_, ?_, ?_⟩ <;> rfl

/-- C2 (amended): a relationship with an unresolvable endpoint contributes
no Mermaid relationship line, no PlantUML relationship line, and no OpenAPI
relationship path (all generators are total, so no error is raised) — but,
unlike the claim's statement, the plain-text textual description still
renders such a relationship (see the counterexample). -/
theorem c2_silent_skip (entities : List Entity) (pre post : List Relationship)
    (rel : Relationship) (paths : List (String × PathItem))
    (h : entities.find? (fun e => e.name == rel.fromName) = none ∨
         entities.find? (fun e => e.name == rel.toName) = none) :
    (pre ++ rel :: post).filterMap (mermaidRelLine entities) =
      (pre ++ post).filterMap (mermaidRelLine entities) ∧
    (pre ++ rel :: post).filterMap (plantUMLRelLine entities) =
      (pre ++ post).filterMap (plantUMLRelLine entities) ∧
    generateRelationshipEndpoints paths (pre ++ rel :: post) entities =
      generateRelationshipEndpoints paths (pre ++ post) entities := by
  have hm : mermaidRelLine entities rel = none := by
    rcases h with h | h
    · simp [mermaidRelLine, h]
    · cases hf : entities.find? (fun e => e.name == rel.fromName) <;>
        simp [mermaidRelLine, h, hf]
  have hp : plantUMLRelLine entities rel = none := by
    rcases h with h | h
    · simp [plantUMLRelLine, h]
    · cases hf : entities.find? (fun e => e.name == rel.fromName) <;>
        simp [plantUMLRelLine, h, hf]
  refine ⟨?_, ?_, ?_⟩
  · simp [List.filterMap_append, List.filterMap_cons, hm]
  · simp [List.filterMap_append, List.filterMap_cons, hp]
  · unfold generateRelationshipEndpoints
    rw [List.foldl_append, List.foldl_append, List.foldl_cons]
    rcases h with h | h
    · simp [h]
    · cases hf : entities.find? (fun e => e.name == rel.fromName) <;> simp [h, hf]

/-- C2 witness: a relationship to the undefined entity `ghost` produces no
Mermaid line, no PlantUML line, and no OpenAPI relationship path. -/
theorem c2_silent_skip_witness :
    [(⟨"user", "ghost", "oneToMany", none⟩ : Relationship)].filterMap
      (mermaidRelLine [⟨"user", "users", none, []⟩]) = [] ∧
    [(⟨"user", "ghost", "oneToMany", none⟩ : Relationship)].filterMap
      (plantUMLRelLine [⟨"user", "users", none, []⟩]) = [] ∧
    generateRelationshipEndpoints [] [⟨"user", "ghost", "oneToMany", none⟩]
      [⟨"user", "users", none, []⟩] = [] :=
  c2_silent_skip [⟨"user", "users", none, []⟩] [] [] ⟨"user", "ghost", "oneToMany", none⟩ []
    (Or.inr (by decide))

/-- C2 counterexample: the textual description renders the unresolvable
relationship `user → ghost` (`generateTextualDescription` never resolves
endpoint names), so "none of the three diagram outputs contains a line
rendering that relationship" is false. -/
theorem c2_silent_skip_counterexample :
    "1. user has many ghost" ∈
      (generateErdDiagram "2024-01-01T00:00:00.000Z"
        ⟨[⟨"user", "users", none, []⟩],
         some [⟨"user", "ghost", "oneToMany", none⟩]⟩).textual := by
  decide

/-- C6 (amended): with the clock threaded explicitly, every modeled part of
the three artifacts other than the `generatedAt`-carrying fields — the JSON
Schema definitions and relationships, the OpenAPI paths, tags and endpoint
count, both diagram notations, and the textual description up to its final
`Generated:` line — is a function of the canonical model alone; the OpenAPI
component schemas are clock-independent only when no field has type
`date`/`datetime`, because their synthesized example values read the clock
(see the counterexample). -/
theorem c6_determinism (pd : ParsedData) (now1 now2 : String)
    (h : ∀ e ∈ pd.entities, ∀ f ∈ e.fields,
        jsToLower f.type ≠ "date" ∧ jsToLower f.type ≠ "datetime") :
    (generateJsonSchema now1 pd).definitions = (generateJsonSchema now2 pd).definitions ∧
    (generateJsonSchema now1 pd).relationships =
      (generateJsonSchema now2 pd).relationships ∧
    (generateApiEndpoints now1 pd).openApiSpec.paths =
      (generateApiEndpoints now2 pd).openApiSpec.paths ∧
    (generateApiEndpoints now1 pd).openApiSpec.tags =
      (generateApiEndpoints now2 pd).openApiSpec.tags ∧
    (generateApiEndpoints now1 pd).summary.totalEndpoints =
      (generateApiEndpoints now2 pd).summary.totalEndpoints ∧
    (generateErdDiagram now1 pd).mermaid = (generateErdDiagram now2 pd).mermaid ∧
    (generateErdDiagram now1 pd).plantUML = (generateErdDiagram now2 pd).plantUML ∧
    (generateErdDiagram now1 pd).textual.dropLast =
      (generateErdDiagram now2 pd).textual.dropLast ∧
    (generateApiEndpoints now1 pd).openApiSpec.componentSchemas =
      (generateApiEndpoints now2 pd).openApiSpec.componentSchemas := by
  have htext : ∀ now, (generateErdDiagram now pd).textual =
      generateTextualDescription now pd.entities (pd.relationships.getD []) := by
    intro now
    unfold generateErdDiagram
    simp
  have hcs : ∀ now, (generateApiEndpoints now pd).openApiSpec.componentSchemas =
      pd.entities.foldl (fun acc e => jsObjInsert e.name (createComponentSchema now e) acc)
        [] := by
    intro now
    unfold generateApiEndpoints
    simp
  refine ⟨rfl, rfl, ?_, ?_, ?_, ?_, ?_, ?_, ?_⟩
  · unfold generateApiEndpoints
    simp
  · unfold generateApiEndpoints
    simp
  · unfold generateApiEndpoints
    simp
  · unfold generateErdDiagram
    simp
  · unfold generateErdDiagram
    simp
  · rw [htext, htext]
    unfold generateTextualDescription
    rw [dropLast_append_singleton, dropLast_append_singleton]
  · rw [hcs, hcs]
    apply List.foldl_ext
    intro acc e he
    rw [createComponentSchema_indep now1 now2 e (h e he)]

/-- C6 witness: on a date-free model the modeled artifact parts agree for
two different clock readings. -/
theorem c6_determinism_witness :
    (generateJsonSchema "A" clockFreeModel).definitions =
      (generateJsonSchema "B" clockFreeModel).definitions ∧
    (generateJsonSchema "A" clockFreeModel).relationships =
      (generateJsonSchema "B" clockFreeModel).relationships ∧
    (generateApiEndpoints "A" clockFreeModel).openApiSpec.paths =
      (generateApiEndpoints "B" clockFreeModel).openApiSpec.paths ∧
    (generateApiEndpoints "A" clockFreeModel).openApiSpec.tags =
      (generateApiEndpoints "B" clockFreeModel).openApiSpec.tags ∧
    (generateApiEndpoints "A" clockFreeModel).summary.totalEndpoints =
      (generateApiEndpoints "B" clockFreeModel).summary.totalEndpoints ∧
    (generateErdDiagram "A" clockFreeModel).mermaid =
      (generateErdDiagram "B" clockFreeModel).mermaid ∧
    (generateErdDiagram "A" clockFreeModel).plantUML =
      (generateErdDiagram "B" clockFreeModel).plantUML ∧
    (generateErdDiagram "A" clockFreeModel).textual.dropLast =
      (generateErdDiagram "B" clockFreeModel).textual.dropLast ∧
    (generateApiEndpoints "A" clockFreeModel).openApiSpec.componentSchemas =
      (generateApiEndpoints "B" clockFreeModel).openApiSpec.componentSchemas :=
  c6_determinism clockFreeModel "A" "B" (by decide)

/-- C6 counterexample: on a model with a `date` field, two runs with
different clock readings produce different OpenAPI component schemas (the
example value of `createdAt` embeds the clock), and a component schema is
not a `generatedAt`-style timestamp field — so byte-identity modulo
`generatedAt` timestamps fails. -/
theorem c6_determinism_counterexample :
    (generateApiEndpoints "2024-01-01T00:00:00.000Z"
        clockSensitiveModel).openApiSpec.componentSchemas ≠
      (generateApiEndpoints "2024-01-02T00:00:00.000Z"
        clockSensitiveModel).openApiSpec.componentSchemas := by
  decide

end SchemaForge
